import Mathlib

/-!
Verification of the expense-tracker dashboard core: transaction records,
the aggregation engine (`calculateInsights`, `calculateStats`), the
transaction load flow, the forecast display selection of the Insights
panel, the rule-based finance advisor, and the persisted-balance update
of the transactions API.  Numbers are modelled as exact rationals.
-/

/-- A transaction record held in the dashboard session state.  Fields that
only matter for presentation (mood, location, the rendered date string)
are omitted; `date` is the sortable timestamp carried as `dateObj`. -/
structure Txn where
  name : String
  ttype : String
  category : String
  amount : ℚ
  date : ℤ := 0
deriving DecidableEq, Repr

/-- A row as returned by the remote transactions API
(fields `Date`, `Merchant`, `Category`, `Amount`). -/
structure BackendRow where
  date : ℤ
  merchant : String
  category : String
  amount : ℚ
deriving DecidableEq, Repr

/-- The formatting step of `loadTransactionsFromBackend`: the `type` field
is derived at read time, `Income` exactly when `Category` is `Salary`. -/
def formatTransaction (t : BackendRow) : Txn :=
  { name := t.merchant
    ttype := if t.category = "Salary" then "Income" else "Expense"
    category := t.category
    amount := t.amount
    date := t.date }

/-- The add-transaction form state (`formData`): the user picks `type` and
`category` independently. -/
structure TxnFormData where
  ftype : String
  name : String
  amount : ℚ
  category : String
deriving DecidableEq, Repr

/-- The record built by `handleAddTransaction`: `type` and `category` are
copied verbatim from the form. -/
def mkAddedTransaction (form : TxnFormData) : Txn :=
  { name := form.name
    ttype := form.ftype
    category := form.category
    amount := form.amount }

/-- The record built by `handleInitialIncomeSubmit`. -/
def initialIncomeTransaction (amount : ℚ) : Txn :=
  { name := "Initial Balance", ttype := "Income", category := "Salary", amount := amount }

/-- The record built by `handleUpdateIncomeSubmit`. -/
def updateIncomeTransaction (source : String) (amount : ℚ) : Txn :=
  { name := source, ttype := "Income", category := "Salary", amount := amount }

/-- The Expense-type records of a transaction list
(`transactions.filter(t => t.type === 'Expense')`). -/
def expensesOf (ts : List Txn) : List Txn :=
  ts.filter (fun t => t.ttype == "Expense")

/-- Sum of expense amounts (`expenses.reduce((sum, t) => sum + t.amount, 0)`). -/
def totalExpensesOf (ts : List Txn) : ℚ :=
  (expensesOf ts).foldl (fun s t => s + t.amount) 0

/-- One step of the category grouping: add `a` to the entry keyed `k`,
keeping entry order, or append a fresh entry at the end (the behaviour of
`categorySpending[t.category] += t.amount` on a JS object whose keys are
non-index strings: property insertion order). -/
def addToGroup (acc : List (String × ℚ)) (k : String) (a : ℚ) : List (String × ℚ) :=
  match acc with
  | [] => [(k, a)]
  | (k0, a0) :: rest =>
    if k0 = k then (k0, a0 + a) :: rest else (k0, a0) :: addToGroup rest k a

/-- The grouping loop of `calculateInsights` over the expense records. -/
def groupCats (ts : List Txn) : List (String × ℚ) :=
  ts.foldl (fun acc t => addToGroup acc t.category t.amount) []

/-- One per-category aggregate entry
(`{ category, amount, percentage }`). -/
structure CatEntry where
  category : String
  amount : ℚ
  percentage : ℚ
deriving DecidableEq, Repr

/-- The entry list of `calculateInsights` before sorting: grouped totals
with `percentage = totalExpenses > 0 ? amount / totalExpenses * 100 : 0`. -/
def categoryArrOf (ts : List Txn) : List CatEntry :=
  (groupCats (expensesOf ts)).map (fun p =>
    { category := p.1
      amount := p.2
      percentage := if 0 < totalExpensesOf ts then p.2 / totalExpensesOf ts * 100 else 0 })

/-- Stable insertion for a descending sort keyed by `key`: the new element
`x` is placed before the first element whose key is not greater, so that
elements with equal keys keep their original relative order. -/
def insertByDesc {α β : Type} [LinearOrder β] (key : α → β) (x : α) :
    List α → List α
  | [] => [x]
  | y :: ys => if key x < key y then y :: insertByDesc key x ys else x :: y :: ys

/-- Stable descending sort (the behaviour of the ES2019 stable
`Array.prototype.sort` called with the comparator `(a, b) => keyb - keya`). -/
def sortByDesc {α β : Type} [LinearOrder β] (key : α → β) : List α → List α
  | [] => []
  | x :: xs => insertByDesc key x (sortByDesc key xs)

/-- The spending-insights result of `calculateInsights`. -/
structure InsightsResult where
  totalExpenses : ℚ
  categorySpending : List CatEntry
deriving DecidableEq, Repr

/-- The `calculateInsights` derivation of the dashboard: expense totals
grouped by category, with percentages of total expense, sorted by amount
descending. -/
def calculateInsights (ts : List Txn) : InsightsResult :=
  { totalExpenses := totalExpensesOf ts
    categorySpending := sortByDesc (fun e => e.amount) (categoryArrOf ts) }

/-- The real-time stats of `calculateStats`. -/
structure Stats where
  totalBalance : ℚ
  totalIncome : ℚ
  totalExpenses : ℚ
  averageThisMonth : ℚ
deriving DecidableEq, Repr

/-- The `calculateStats` derivation of the dashboard. -/
def calculateStats (ts : List Txn) : Stats :=
  let totalIncome := (ts.filter (fun t => t.ttype == "Income")).foldl (fun s t => s + t.amount) 0
  let totalExpenses := totalExpensesOf ts
  { totalBalance := totalIncome - totalExpenses
    totalIncome := totalIncome
    totalExpenses := totalExpenses
    averageThisMonth :=
      if 0 < ts.length then (ts.foldl (fun s t => s + t.amount) 0) / (ts.length : ℚ) else 0 }

/-- First-occurrence order of a list of keys: each key is kept at the
position of its first appearance, later duplicates are dropped. -/
def firstKeys (l : List String) : List String :=
  l.foldl (fun acc c => if c ∈ acc then acc else acc ++ [c]) []

/-- Result shape of `transactionAPI.getTransactions`: a success flag and a
row list.  On a transport error the catch branch returns
`{ success: false, data: [] }`. -/
structure FetchResult where
  success : Bool
  data : List BackendRow
deriving DecidableEq, Repr

/-- What the dashboard does after a transaction fetch resolves: either it
stores the formatted list, or it opens the initial-income onboarding
modal.  No other outcome exists in `loadTransactionsFromBackend`. -/
inductive LoadOutcome where
  | setTransactions (ts : List Txn)
  | showInitialIncomeModal
deriving DecidableEq, Repr

/-- The value `getTransactions` returns when the fetch throws. -/
def getTransactionsFailure : FetchResult :=
  { success := false, data := [] }

/-- The branch logic of `loadTransactionsFromBackend`: only a successful
result with at least one row is stored; everything else (including a
transport failure) falls into the new-user branch. -/
def loadTransactionsFromBackend (result : FetchResult) : LoadOutcome :=
  if result.success ∧ 0 < result.data.length then
    LoadOutcome.setTransactions (sortByDesc (fun t => t.date) (result.data.map formatTransaction))
  else
    LoadOutcome.showInitialIncomeModal

/-- The mock forecast synthesized by the Insights panel
(`mockForecastData`), parametrized by the session-random daily expense
draw (`Math.floor(Math.random() * 800 + 1200)`). -/
structure MockForecast where
  projected_expenses : ℚ
  daily_average : ℚ
  projected_balance : ℚ
  min_balance : ℚ
  days_remaining : ℚ
  category_forecasts : List (String × ℚ × ℚ)
deriving DecidableEq, Repr

/-- Local fallback forecast model: hard-coded current balance 107358 and
hard-coded 19 days left, projected expenses `dailyExpense * 19`, minimum
balance `floor(projectedBalance * 0.85)`, and fixed category weights. -/
def mockForecastData (dailyExpense : ℚ) : MockForecast :=
  let currentBalance : ℚ := 107358
  let daysLeft : ℚ := 19
  let projectedExpenses := dailyExpense * daysLeft
  let projectedBalance := currentBalance - projectedExpenses
  { projected_expenses := projectedExpenses
    daily_average := dailyExpense
    projected_balance := projectedBalance
    min_balance := ((Rat.floor (projectedBalance * 0.85) : ℤ) : ℚ)
    days_remaining := daysLeft
    category_forecasts :=
      [ ("Food", projectedExpenses * 0.35, dailyExpense * 0.35)
      , ("Transport", projectedExpenses * 0.20, dailyExpense * 0.20)
      , ("Shopping", projectedExpenses * 0.18, dailyExpense * 0.18)
      , ("Bills", projectedExpenses * 0.15, dailyExpense * 0.15)
      , ("Entertainment", projectedExpenses * 0.08, dailyExpense * 0.08)
      , ("Others", projectedExpenses * 0.04, dailyExpense * 0.04) ] }

/-- The nested `data` object of the remote forecast payload as the
Insights panel reads it (`forecasts?.data?.prophet?.predicted_total`,
`...lstm...`, `balance_projection`, `min_balance`, `days_remaining`,
`category_forecasts`).  A `none` field models an absent property. -/
structure RemoteForecast where
  prophet_predicted_total : Option ℚ
  prophet_average_daily : Option ℚ
  lstm_predicted_total : Option ℚ
  lstm_average_daily : Option ℚ
  balance_projection : Option ℚ
  min_balance : Option ℚ
  days_remaining : Option ℚ
  category_forecasts : Option (List (String × ℚ × ℚ))
deriving DecidableEq, Repr

/-- A remote payload with no usable field. -/
def emptyRemote : RemoteForecast :=
  { prophet_predicted_total := none
    prophet_average_daily := none
    lstm_predicted_total := none
    lstm_average_daily := none
    balance_projection := none
    min_balance := none
    days_remaining := none
    category_forecasts := none }

/-- The JS `||` applied to an optionally-present number: an absent value
or the number `0` (falsy) select the fallback, any other number is kept. -/
def jsOrQ (x : Option ℚ) (fallback : ℚ) : ℚ :=
  match x with
  | none => fallback
  | some v => if v = 0 then fallback else v

/-- The JS `||` applied to an optionally-present object: any present
object is truthy, so only absence selects the fallback. -/
def jsOrObj (x : Option (List (String × ℚ × ℚ))) (fallback : List (String × ℚ × ℚ)) :
    List (String × ℚ × ℚ) :=
  match x with
  | none => fallback
  | some v => v

/-- The field selection the Insights panel renders: each figure is
`remote-field || fallback` exactly as in the JSX
(`forecasts?.data?.prophet?.predicted_total ||
forecasts?.data?.lstm?.predicted_total || mockForecastData...`). -/
def displayedForecast (remote : Option RemoteForecast) (mock : MockForecast) : MockForecast :=
  { projected_expenses :=
      jsOrQ (remote.bind (fun r => r.prophet_predicted_total))
        (jsOrQ (remote.bind (fun r => r.lstm_predicted_total)) mock.projected_expenses)
    daily_average :=
      jsOrQ (remote.bind (fun r => r.prophet_average_daily))
        (jsOrQ (remote.bind (fun r => r.lstm_average_daily)) mock.daily_average)
    projected_balance :=
      jsOrQ (remote.bind (fun r => r.balance_projection)) mock.projected_balance
    min_balance :=
      jsOrQ (remote.bind (fun r => r.min_balance)) mock.min_balance
    days_remaining :=
      jsOrQ (remote.bind (fun r => r.days_remaining)) mock.days_remaining
    category_forecasts :=
      jsOrObj (remote.bind (fun r => r.category_forecasts)) mock.category_forecasts }

/-- Gregorian leap-year rule, needed to state the specification formula
for days remaining in the month. -/
def isLeapYear (y : ℕ) : Bool :=
  (y % 4 == 0 && y % 100 != 0) || y % 400 == 0

/-- Number of days of month `m` in year `y` (Gregorian calendar). -/
def daysInMonth (y m : ℕ) : ℕ :=
  if m = 2 then (if isLeapYear y then 29 else 28)
  else if m = 4 ∨ m = 6 ∨ m = 9 ∨ m = 11 then 30
  else 31

/-- Modelled from the spec: the local-model formula
`daysRemaining = daysInCurrentMonth(today) - dayOfMonth(today)`.  The
source never computes this; it is the comparison target for the
hard-coded value of `mockForecastData`. -/
def specDaysRemaining (y m d : ℕ) : ℤ :=
  (daysInMonth y m : ℤ) - (d : ℤ)

/-- Lower-casing of the chat query (`question.toLowerCase()`), restricted
to the ASCII mapping `Char.toLower` performs. -/
def strToLower (s : String) : String :=
  String.mk (s.toList.map Char.toLower)

/-- Whether `needle` starts the character list `hay`. -/
def charsHasPre : List Char → List Char → Bool
  | [], _ => true
  | _ :: _, [] => false
  | a :: as, b :: bs => a == b && charsHasPre as bs

/-- Whether `needle` occurs contiguously inside the character list. -/
def charsHasSub (needle : List Char) : List Char → Bool
  | [] => charsHasPre needle []
  | b :: rest => charsHasPre needle (b :: rest) || charsHasSub needle rest

/-- The JS `hay.includes(needle)` substring test. -/
def strContains (hay needle : String) : Bool :=
  charsHasSub needle.toList hay.toList

/-- The canned responses of `generateFinanceAdvice`, one constructor per
template string, carrying exactly the live figures interpolated into the
text. -/
inductive AdviceResponse where
  | reduceExpenses (balance monthly : ℚ) (topCategory : Option CatEntry)
  | buildEmergency (surplus low high : ℚ)
  | balancedSplit (surplus liquid sip fd : ℚ)
  | investmentSplit (surplus equity ppfElss goldEtf emergency : ℚ)
  | budgetBreakdown (pct income expenses balance : ℚ) (topCategory : Option CatEntry)
  | categoryBreakdown (topThree : List CatEntry)
  | balanceStatus (balance income expenses surplus : ℚ)
  | sipPlan (recommended : ℚ)
  | emergencyFund (required current gap : ℚ)
  | defaultHelp
deriving DecidableEq, Repr

/-- The keyword-dispatch of `generateFinanceAdvice`: first matching intent
wins, tiers on `surplus = totalBalance - totalExpenses`, figures computed
as in the template strings (`surplus * 0.4` for the equity share of the
top tier, and so on). -/
def generateFinanceAdvice (question : String) (transactions : List Txn) (stats : Stats) :
    AdviceResponse :=
  let lowerQuestion := strToLower question
  let monthlyExpenses := stats.totalExpenses
  let surplus := stats.totalBalance - monthlyExpenses
  let insights := calculateInsights transactions
  let topCategory := insights.categorySpending.head?
  if strContains lowerQuestion "invest" || strContains lowerQuestion "investment" ||
      strContains lowerQuestion "extra money" then
    if surplus ≤ 0 then
      AdviceResponse.reduceExpenses stats.totalBalance monthlyExpenses topCategory
    else if surplus < 10000 then
      AdviceResponse.buildEmergency surplus (monthlyExpenses * 3) (monthlyExpenses * 6)
    else if surplus < 50000 then
      AdviceResponse.balancedSplit surplus (surplus * 0.5) (surplus * 0.3) (surplus * 0.2)
    else
      AdviceResponse.investmentSplit surplus (surplus * 0.4) (surplus * 0.25)
        (surplus * 0.15) (surplus * 0.2)
  else if strContains lowerQuestion "budget" || strContains lowerQuestion "spend" ||
      strContains lowerQuestion "save" then
    AdviceResponse.budgetBreakdown (monthlyExpenses / stats.totalIncome * 100)
      stats.totalIncome stats.totalExpenses stats.totalBalance topCategory
  else if strContains lowerQuestion "category" || strContains lowerQuestion "where" ||
      strContains lowerQuestion "spending" then
    AdviceResponse.categoryBreakdown (insights.categorySpending.take 3)
  else if strContains lowerQuestion "balance" || strContains lowerQuestion "how much" then
    AdviceResponse.balanceStatus stats.totalBalance stats.totalIncome stats.totalExpenses surplus
  else if strContains lowerQuestion "sip" || strContains lowerQuestion "mutual fund" then
    AdviceResponse.sipPlan
      (if 0 < surplus then ((Rat.floor (surplus * 0.3 / 1000) : ℤ) : ℚ) * 1000 else 500)
  else if strContains lowerQuestion "emergency" || strContains lowerQuestion "fund" then
    AdviceResponse.emergencyFund (monthlyExpenses * 6)
      (if 0 < surplus then surplus else 0)
      (monthlyExpenses * 6 - (if 0 < surplus then surplus else 0))
  else
    AdviceResponse.defaultHelp

/-- A persisted row of the `transactions` table, restricted to the fields
the balance computation touches.  The list order is insertion order
(ascending `created_at`). -/
structure DBRow where
  username : String
  merchant : String
  category : String
  amount : ℚ
  balance_after : ℚ
deriving DecidableEq, Repr

/-- The `balance_after` of the most recently inserted row for `u` (the
query ordered by `created_at` descending with limit 1), or 0 when the
user has no rows yet; a stored balance of 0 also yields 0 through the
`|| 0`, which is the same value. -/
def lastBalance (table : List DBRow) (u : String) : ℚ :=
  match (table.filter (fun r => r.username == u)).getLast? with
  | none => 0
  | some r => r.balance_after

/-- The sign rule of `addTransaction`: `Salary` or `Income` categories
add, every other category subtracts. -/
def signedDelta (category : String) (amount : ℚ) : ℚ :=
  if category = "Salary" ∨ category = "Income" then amount else -amount

/-- The insert performed by `transactionAPI.addTransaction`: a new row for
`u` whose `balance_after` extends the last stored balance by the signed
amount. -/
def addTransactionDB (table : List DBRow) (u merchant cat : String) (amt : ℚ) : List DBRow :=
  table ++ [{ username := u, merchant := merchant, category := cat, amount := amt,
              balance_after := lastBalance table u + signedDelta cat amt }]

/-- Running-balance invariant of the persisted table: every row extends
the balance of the previous row of the same user (0 when none) by its
signed amount. -/
def BalanceInvariant (table : List DBRow) : Prop :=
  ∀ i, (h : i < table.length) →
    (table.get ⟨i, h⟩).balance_after =
      lastBalance (table.take i) (table.get ⟨i, h⟩).username
        + signedDelta (table.get ⟨i, h⟩).category (table.get ⟨i, h⟩).amount

theorem insertByDesc_perm {α β : Type} [LinearOrder β] (key : α → β) (x : α) (l : List α) :
    List.Perm (insertByDesc key x l) (x :: l) := by
  induction l with
  | nil => simp [insertByDesc]
  | cons y ys ih =>
    by_cases h : key x < key y
    · simp only [insertByDesc, if_pos h]
      exact (ih.cons y).trans (List.Perm.swap x y ys)
    · simp [insertByDesc, if_neg h]

theorem sortByDesc_perm {α β : Type} [LinearOrder β] (key : α → β) (l : List α) :
    List.Perm (sortByDesc key l) l := by
  induction l with
  | nil => simp [sortByDesc]
  | cons x xs ih => exact (insertByDesc_perm key x (sortByDesc key xs)).trans (ih.cons x)

theorem insertByDesc_pairwise {α β : Type} [LinearOrder β] (key : α → β) (x : α)
    (l : List α) (hl : List.Pairwise (fun a b => key b ≤ key a) l) :
    List.Pairwise (fun a b => key b ≤ key a) (insertByDesc key x l) := by
  induction l with
  | nil => simp [insertByDesc]
  | cons y ys ih =>
    rcases List.pairwise_cons.mp hl with ⟨hy, hys⟩
    by_cases h : key x < key y
    · simp only [insertByDesc, if_pos h]
      refine List.pairwise_cons.mpr ⟨?_, ih hys⟩
      intro z hz
      rcases List.mem_cons.mp ((insertByDesc_perm key x ys).mem_iff.mp hz) with rfl | hz2
      · exact le_of_lt h
      · exact hy z hz2
    · simp only [insertByDesc, if_neg h]
      have hxy : key y ≤ key x := le_of_not_lt h
      refine List.pairwise_cons.mpr ⟨?_, hl⟩
      intro z hz
      rcases List.mem_cons.mp hz with rfl | hz
      · exact hxy
      · exact le_trans (hy z hz) hxy

theorem sortByDesc_pairwise {α β : Type} [LinearOrder β] (key : α → β) (l : List α) :
    List.Pairwise (fun a b => key b ≤ key a) (sortByDesc key l) := by
  induction l with
  | nil => simp [sortByDesc]
  | cons x xs ih => exact insertByDesc_pairwise key x (sortByDesc key xs) ih

theorem insertByDesc_filter {α β : Type} [LinearOrder β] (key : α → β) (x : α)
    (l : List α) (q : β) :
    (insertByDesc key x l).filter (fun e => decide (key e = q)) =
      if key x = q then x :: l.filter (fun e => decide (key e = q))
      else l.filter (fun e => decide (key e = q)) := by
  induction l with
  | nil =>
    by_cases hx : key x = q <;> simp [insertByDesc, hx]
  | cons y ys ih =>
    by_cases h : key x < key y
    · have hboth : ¬(key x = q ∧ key y = q) := by
        rintro ⟨hx, hy⟩
        rw [hx, hy] at h
        exact lt_irrefl q h
      simp only [insertByDesc, if_pos h, List.filter_cons, ih]
      by_cases hy : key y = q
      · have hx : ¬ key x = q := fun hx => hboth ⟨hx, hy⟩
        simp [hy, hx]
      · by_cases hx : key x = q
        · simp [hy, hx]
        · simp [hy, hx]
    · simp only [insertByDesc, if_neg h, List.filter_cons]
      by_cases hx : key x = q <;> simp [hx]

theorem sortByDesc_filter {α β : Type} [LinearOrder β] (key : α → β) (l : List α) (q : β) :
    (sortByDesc key l).filter (fun e => decide (key e = q)) =
      l.filter (fun e => decide (key e = q)) := by
  induction l with
  | nil => rfl
  | cons x xs ih =>
    simp only [sortByDesc, insertByDesc_filter, ih, List.filter_cons]
    by_cases hx : key x = q <;> simp [hx]

theorem addToGroup_snd_sum (acc : List (String × ℚ)) (k : String) (a : ℚ) :
    ((addToGroup acc k a).map Prod.snd).sum = ((acc.map Prod.snd).sum) + a := by
  induction acc with
  | nil => simp [addToGroup]
  | cons p rest ih =>
    obtain ⟨k0, a0⟩ := p
    by_cases h : k0 = k
    · simp only [addToGroup, if_pos h, List.map_cons, List.sum_cons]
      ring
    · simp only [addToGroup, if_neg h, List.map_cons, List.sum_cons, ih]
      ring

theorem groupCats_foldl_snd_sum (ts : List Txn) :
    ∀ acc : List (String × ℚ),
      ((ts.foldl (fun acc t => addToGroup acc t.category t.amount) acc).map Prod.snd).sum
        = ((acc.map Prod.snd).sum) + (ts.map (fun t => t.amount)).sum := by
  induction ts with
  | nil => intro acc; simp
  | cons t ts ih =>
    intro acc
    simp only [List.foldl_cons, List.map_cons, List.sum_cons, ih, addToGroup_snd_sum]
    ring

theorem groupCats_snd_sum (ts : List Txn) :
    ((groupCats ts).map Prod.snd).sum = (ts.map (fun t => t.amount)).sum := by
  simpa [groupCats] using groupCats_foldl_snd_sum ts []

theorem addToGroup_keys (acc : List (String × ℚ)) (k : String) (a : ℚ) :
    (addToGroup acc k a).map Prod.fst =
      if k ∈ acc.map Prod.fst then acc.map Prod.fst else acc.map Prod.fst ++ [k] := by
  induction acc with
  | nil => simp [addToGroup]
  | cons p rest ih =>
    obtain ⟨k0, a0⟩ := p
    by_cases h : k0 = k
    · simp [addToGroup, h]
    · have hne : ¬ k = k0 := fun hk => h hk.symm
      simp only [addToGroup, if_neg h, List.map_cons, ih, List.mem_cons]
      by_cases hm : k ∈ rest.map Prod.fst <;> simp [hm, hne]

theorem groupCats_foldl_keys (ts : List Txn) :
    ∀ acc : List (String × ℚ),
      ((ts.foldl (fun acc t => addToGroup acc t.category t.amount) acc)).map Prod.fst
        = (ts.map (fun t => t.category)).foldl
            (fun ks c => if c ∈ ks then ks else ks ++ [c]) (acc.map Prod.fst) := by
  induction ts with
  | nil => intro acc; rfl
  | cons t ts ih =>
    intro acc
    simp only [List.foldl_cons, List.map_cons, ih, addToGroup_keys]

theorem groupCats_keys (ts : List Txn) :
    (groupCats ts).map Prod.fst = firstKeys (ts.map (fun t => t.category)) := by
  simpa [groupCats, firstKeys] using groupCats_foldl_keys ts []

theorem foldl_add_amount (ts : List Txn) : ∀ init : ℚ,
    ts.foldl (fun s t => s + t.amount) init = init + (ts.map (fun t => t.amount)).sum := by
  induction ts with
  | nil => intro init; simp
  | cons t ts ih =>
    intro init
    simp only [List.foldl_cons, List.map_cons, List.sum_cons, ih]
    ring

theorem sum_map_div_mul (l : List (String × ℚ)) (T : ℚ) :
    (l.map (fun p => p.2 / T * 100)).sum = ((l.map Prod.snd).sum) / T * 100 := by
  induction l with
  | nil => simp
  | cons p rest ih =>
    simp only [List.map_cons, List.sum_cons, ih]
    ring

/-- C1 counterexample: the manual add-transaction operation copies the
form fields verbatim, so a form with type Income and category Food
produces a record whose type is Income although its category is not
Salary, refuting the claimed iff for records created by
`handleAddTransaction`. -/
theorem type_salary_iff_counterexample :
    (mkAddedTransaction { ftype := "Income", name := "Lunch", amount := 250, category := "Food" }).ttype
        = "Income"
    ∧ ¬ (mkAddedTransaction { ftype := "Income", name := "Lunch", amount := 250, category := "Food" }).category
        = "Salary" := by
  decide

/-- C1 amended: records loaded from the remote API, and records created by
the initial-income and update-income operations, satisfy type = Income iff
category = Salary; the manual add-transaction path does not enforce the
rule. -/
theorem type_salary_iff_amended :
    (∀ row : BackendRow,
        ((formatTransaction row).ttype = "Income" ↔ (formatTransaction row).category = "Salary"))
    ∧ (∀ a : ℚ,
        ((initialIncomeTransaction a).ttype = "Income"
          ↔ (initialIncomeTransaction a).category = "Salary"))
    ∧ (∀ s : String, ∀ a : ℚ,
        ((updateIncomeTransaction s a).ttype = "Income"
          ↔ (updateIncomeTransaction s a).category = "Salary")) := by
  refine ⟨?_, ?_, ?_⟩
  · intro row
    by_cases h : row.category = "Salary" <;> simp [formatTransaction, h]
  · intro a
    simp [initialIncomeTransaction]
  · intro s a
    simp [updateIncomeTransaction]

/-- C4 counterexample: a transport failure of `getTransactions` (which
returns success false with an empty list) drives
`loadTransactionsFromBackend` to exactly the same outcome as a brand-new
user with a successful empty result: the initial-income onboarding modal,
with no error state or message. -/
theorem load_error_indistinguishable_counterexample :
    loadTransactionsFromBackend getTransactionsFailure = LoadOutcome.showInitialIncomeModal
    ∧ loadTransactionsFromBackend { success := true, data := [] }
        = LoadOutcome.showInitialIncomeModal := by
  decide

/-- C4 amended: the API layer marks transport failure with a false success
flag, distinguishable from a successful empty result, but the dashboard
load flow collapses both (and any unsuccessful result) into the same
onboarding outcome and surfaces no error state. -/
theorem load_error_collapse_amended :
    (getTransactionsFailure.success = false
      ∧ ({ success := true, data := [] } : FetchResult).success = true)
    ∧ (∀ rows : List BackendRow,
        loadTransactionsFromBackend { success := false, data := rows }
          = LoadOutcome.showInitialIncomeModal)
    ∧ loadTransactionsFromBackend { success := true, data := [] }
        = LoadOutcome.showInitialIncomeModal := by
  refine ⟨⟨rfl, rfl⟩, ?_, by decide⟩
  intro rows
  simp [loadTransactionsFromBackend]

/-- C7 counterexample: the local forecast model hard-codes 19 days
remaining, while the specified formula daysInCurrentMonth minus dayOfMonth
gives 30 on 2025-10-01, so the two disagree. -/
theorem local_days_remaining_counterexample :
    (mockForecastData 1500).days_remaining = 19
    ∧ specDaysRemaining 2025 10 1 = 30
    ∧ ((19 : ℤ) ≠ 30) := by
  decide

/-- C7 amended: the local forecast model ignores the current date
entirely; its days-remaining figure is the constant 19 for every daily
expense draw. -/
theorem local_days_remaining_const_amended :
    ∀ dailyExpense : ℚ, (mockForecastData dailyExpense).days_remaining = 19 := by
  intro dailyExpense
  rfl

/-- C9: an investment-intent query with total balance 100000 and total
expenses 40000 (surplus 60000) lands in the top surplus tier, whose equity
share is surplus times 0.4, encoded as 24000. -/
theorem advisor_invest_top_tier :
    generateFinanceAdvice "How should I invest my extra money?" []
        { totalBalance := 100000, totalIncome := 140000, totalExpenses := 40000,
          averageThisMonth := 0 }
      = AdviceResponse.investmentSplit 60000 24000 15000 9000 12000
    ∧ (60000 : ℚ) * 0.4 = 24000 := by
  constructor
  · have hq : strContains (strToLower "How should I invest my extra money?") "invest" = true := by
      decide
    simp only [generateFinanceAdvice]
    rw [hq]
    norm_num
  · norm_num

/-- Two expense transactions used to exercise the aggregation on a list
with positive total expense. -/
def demoTxns : List Txn :=
  [ { name := "a", ttype := "Expense", category := "Food", amount := 30 }
  , { name := "b", ttype := "Expense", category := "Travel", amount := 70 } ]

/-- C2: whenever the total expense is strictly positive the category
percentages sum to exactly 100, and whenever the total expense is zero
every percentage is the guarded 0 (no division is performed). -/
theorem percentages_sum_100 (ts : List Txn) :
    (0 < (calculateInsights ts).totalExpenses →
      ((calculateInsights ts).categorySpending.map (fun e => e.percentage)).sum = 100)
    ∧ ((calculateInsights ts).totalExpenses = 0 →
      ∀ e ∈ (calculateInsights ts).categorySpending, e.percentage = 0) := by
  constructor
  · intro hT
    have hT : 0 < totalExpensesOf ts := hT
    have hperm :
        List.Perm ((calculateInsights ts).categorySpending.map (fun e => e.percentage))
          ((categoryArrOf ts).map (fun e => e.percentage)) :=
      (sortByDesc_perm (fun e : CatEntry => e.amount) (categoryArrOf ts)).map _
    rw [hperm.sum_eq]
    have harr : (categoryArrOf ts).map (fun e => e.percentage)
        = (groupCats (expensesOf ts)).map (fun p => p.2 / totalExpensesOf ts * 100) := by
      simp only [categoryArrOf, List.map_map]
      refine List.map_congr_left ?_
      intro p _
      simp [hT]
    rw [harr, sum_map_div_mul, groupCats_snd_sum]
    have hTsum : totalExpensesOf ts = ((expensesOf ts).map (fun t => t.amount)).sum := by
      simp [totalExpensesOf, foldl_add_amount]
    rw [← hTsum, div_self (ne_of_gt hT)]
    norm_num
  · intro h0 e he
    have h0 : totalExpensesOf ts = 0 := h0
    have he2 : e ∈ categoryArrOf ts :=
      (sortByDesc_perm (fun e : CatEntry => e.amount) (categoryArrOf ts)).mem_iff.mp he
    rcases List.mem_map.mp he2 with ⟨p, _, rfl⟩
    simp [h0]

/-- C2 witness: a concrete two-expense list with positive total expense
whose percentages sum to 100. -/
theorem percentages_sum_100_witness :
    0 < (calculateInsights demoTxns).totalExpenses
    ∧ ((calculateInsights demoTxns).categorySpending.map (fun e => e.percentage)).sum = 100 := by
  have h : 0 < (calculateInsights demoTxns).totalExpenses := by
    show (0 : ℚ) < totalExpensesOf demoTxns
    norm_num [totalExpensesOf, expensesOf, demoTxns]
  exact ⟨h, (percentages_sum_100 demoTxns).1 h⟩

/-- C3: the category aggregate totals sum to the summary total expense,
which is the sum of the Expense-type amounts; the empty list yields the
all-zero summary and an empty aggregate sequence. -/
theorem aggregate_totals_match (ts : List Txn) :
    ((calculateInsights ts).categorySpending.map (fun e => e.amount)).sum
        = (calculateStats ts).totalExpenses
    ∧ (calculateStats ts).totalExpenses = ((expensesOf ts).map (fun t => t.amount)).sum
    ∧ calculateStats []
        = { totalBalance := 0, totalIncome := 0, totalExpenses := 0, averageThisMonth := 0 }
    ∧ (calculateInsights []).categorySpending = [] := by
  have hstats : (calculateStats ts).totalExpenses
      = ((expensesOf ts).map (fun t => t.amount)).sum := by
    show totalExpensesOf ts = _
    simp [totalExpensesOf, foldl_add_amount]
  refine ⟨?_, hstats, ?_, rfl⟩
  · have hperm :
        List.Perm ((calculateInsights ts).categorySpending.map (fun e => e.amount))
          ((categoryArrOf ts).map (fun e => e.amount)) :=
      (sortByDesc_perm (fun e : CatEntry => e.amount) (categoryArrOf ts)).map _
    rw [hperm.sum_eq]
    have harr : (categoryArrOf ts).map (fun e => e.amount)
        = (groupCats (expensesOf ts)).map Prod.snd := by
      simp only [categoryArrOf, List.map_map]
      rfl
    rw [harr, groupCats_snd_sum, hstats]
  · simp [calculateStats, totalExpensesOf, expensesOf]

/-- A list whose first record is Income-typed with category Travel,
followed by equal-total expenses in categories Food then Travel. -/
def mixedTxns : List Txn :=
  [ { name := "i", ttype := "Income", category := "Travel", amount := 5 }
  , { name := "e1", ttype := "Expense", category := "Food", amount := 50 }
  , { name := "e2", ttype := "Expense", category := "Travel", amount := 50 } ]

/-- C6 counterexample: Food and Travel have equal totals, Travel occurs
first in the source transaction sequence (on the Income record), yet the
aggregates list Food first, because the grouping only scans Expense
records and Food is the first expense. -/
theorem tie_break_counterexample :
    (calculateInsights mixedTxns).categorySpending.map (fun e => e.category) = ["Food", "Travel"]
    ∧ (calculateInsights mixedTxns).categorySpending.map (fun e => e.amount) = [50, 50]
    ∧ (mixedTxns.map (fun t => t.category)).indexOf "Travel" = 0
    ∧ (mixedTxns.map (fun t => t.category)).indexOf "Food" = 1 := by
  refine ⟨?_, ?_, by decide, by decide⟩
  · decide
  · decide

/-- C6 amended: the aggregates are sorted by total descending; entries
with a fixed total keep exactly their pre-sort order (stable sort), and
the pre-sort category order is the first-occurrence order of the
Expense-type records of the source sequence. -/
theorem tie_break_amended (ts : List Txn) :
    List.Pairwise (fun a b => b.amount ≤ a.amount) (calculateInsights ts).categorySpending
    ∧ (∀ q : ℚ,
        (calculateInsights ts).categorySpending.filter (fun e => decide (e.amount = q))
          = (categoryArrOf ts).filter (fun e => decide (e.amount = q)))
    ∧ (categoryArrOf ts).map (fun e => e.category)
        = firstKeys ((expensesOf ts).map (fun t => t.category)) := by
  refine ⟨?_, ?_, ?_⟩
  · exact sortByDesc_pairwise (fun e : CatEntry => e.amount) (categoryArrOf ts)
  · intro q
    exact sortByDesc_filter (fun e : CatEntry => e.amount) (categoryArrOf ts) q
  · have : (categoryArrOf ts).map (fun e => e.category)
        = (groupCats (expensesOf ts)).map Prod.fst := by
      simp only [categoryArrOf, List.map_map]
      rfl
    rw [this, groupCats_keys]

/-- A remote payload that supplies a balance projection of exactly 0. -/
def remoteZeroBalance : RemoteForecast :=
  { emptyRemote with balance_projection := some 0 }

/-- A remote payload that supplies only a nonzero balance projection. -/
def remoteBalanceOnly : RemoteForecast :=
  { emptyRemote with balance_projection := some 77 }

/-- A remote payload with negative daily average and days remaining. -/
def remoteNegative : RemoteForecast :=
  { emptyRemote with prophet_average_daily := some (-100), days_remaining := some (-5) }

/-- C5 counterexample: a remote payload that supplies a projected balance
of 0 is not used verbatim; the JS truthiness fallback replaces it with
the locally synthesized value 78858. -/
theorem remote_verbatim_counterexample :
    remoteZeroBalance.balance_projection = some 0
    ∧ (displayedForecast (some remoteZeroBalance) (mockForecastData 1500)).projected_balance = 78858
    ∧ ((78858 : ℚ) ≠ 0) := by
  refine ⟨rfl, ?_, by norm_num⟩
  norm_num [displayedForecast, jsOrQ, remoteZeroBalance, emptyRemote, mockForecastData]

/-- C5 amended: a remote-supplied field is used verbatim exactly when its
value is truthy: any nonzero remote number and any present
category-forecast object pass through, while a remote 0 (or an absent
field) falls back to the local value — for the projected total, prophet
is preferred over lstm over the mock. -/
theorem remote_verbatim_amended (r : RemoteForecast) (m : MockForecast) (v : ℚ)
    (hv : v ≠ 0) :
    (r.prophet_predicted_total = some v →
      (displayedForecast (some r) m).projected_expenses = v)
    ∧ (r.prophet_average_daily = some v →
      (displayedForecast (some r) m).daily_average = v)
    ∧ (r.balance_projection = some v → (displayedForecast (some r) m).projected_balance = v)
    ∧ (r.min_balance = some v → (displayedForecast (some r) m).min_balance = v)
    ∧ (r.days_remaining = some v → (displayedForecast (some r) m).days_remaining = v)
    ∧ (∀ l, r.category_forecasts = some l →
        (displayedForecast (some r) m).category_forecasts = l)
    ∧ (r.balance_projection = some 0 →
        (displayedForecast (some r) m).projected_balance = m.projected_balance)
    ∧ (r.prophet_predicted_total = none → r.lstm_predicted_total = some v →
        (displayedForecast (some r) m).projected_expenses = v) := by
  refine ⟨?_, ?_, ?_, ?_, ?_, ?_, ?_, ?_⟩
  · intro h
    simp [displayedForecast, jsOrQ, h, hv]
  · intro h
    simp [displayedForecast, jsOrQ, h, hv]
  · intro h
    simp [displayedForecast, jsOrQ, h, hv]
  · intro h
    simp [displayedForecast, jsOrQ, h, hv]
  · intro h
    simp [displayedForecast, jsOrQ, h, hv]
  · intro l h
    simp [displayedForecast, jsOrObj, h]
  · intro h
    simp [displayedForecast, jsOrQ, h]
  · intro h1 h2
    simp [displayedForecast, jsOrQ, h1, h2, hv]

/-- C5 witness: a concrete remote payload with a nonzero balance
projection is displayed verbatim. -/
theorem remote_verbatim_amended_witness :
    ((77 : ℚ) ≠ 0)
    ∧ (displayedForecast (some remoteBalanceOnly) (mockForecastData 1500)).projected_balance = 77 := by
  have h77 : (77 : ℚ) ≠ 0 := by norm_num
  exact ⟨h77,
    (remote_verbatim_amended remoteBalanceOnly (mockForecastData 1500) 77 h77).2.2.1 rfl⟩

/-- C8 counterexample: a remote payload carrying negative figures is
passed through verbatim, so the rendered daily average and days remaining
can both be negative. -/
theorem forecast_nonneg_counterexample :
    (displayedForecast (some remoteNegative) (mockForecastData 1500)).daily_average = -100
    ∧ (displayedForecast (some remoteNegative) (mockForecastData 1500)).days_remaining = -5
    ∧ ((-100 : ℚ) < 0) ∧ ((-5 : ℚ) < 0) := by
  refine ⟨?_, ?_, by norm_num, by norm_num⟩
  · norm_num [displayedForecast, jsOrQ, remoteNegative, emptyRemote]
  · norm_num [displayedForecast, jsOrQ, remoteNegative, emptyRemote]

/-- C8 amended: when no remote payload is present the rendered forecast
figures come from the local model, whose days remaining is the constant
19 and whose daily average is the draw (at least 1200), both
non-negative; remote-supplied values are not clamped. -/
theorem forecast_nonneg_amended (dailyExpense : ℚ) (h : 1200 ≤ dailyExpense) :
    0 ≤ (displayedForecast none (mockForecastData dailyExpense)).days_remaining
    ∧ 0 ≤ (displayedForecast none (mockForecastData dailyExpense)).daily_average := by
  constructor
  · norm_num [displayedForecast, jsOrQ, mockForecastData]
  · have : (displayedForecast none (mockForecastData dailyExpense)).daily_average
        = dailyExpense := by
      simp [displayedForecast, jsOrQ, mockForecastData]
    rw [this]
    linarith

/-- C8 witness: the no-remote forecast at the concrete draw 1500 is
non-negative in both figures. -/
theorem forecast_nonneg_amended_witness :
    (1200 : ℚ) ≤ 1500
    ∧ (0 ≤ (displayedForecast none (mockForecastData 1500)).days_remaining
        ∧ 0 ≤ (displayedForecast none (mockForecastData 1500)).daily_average) := by
  have h : (1200 : ℚ) ≤ 1500 := by norm_num
  exact ⟨h, forecast_nonneg_amended 1500 h⟩

/-- C10: inserting a transaction through the API preserves the
running-balance invariant: the fresh row extends the most recent balance
of that user (0 when none) by the amount, added for Salary or Income
categories and subtracted otherwise. -/
theorem addTransaction_balance_invariant (table : List DBRow) (u merchant cat : String)
    (amt : ℚ) (hinv : BalanceInvariant table) :
    BalanceInvariant (addTransactionDB table u merchant cat amt) := by
  intro i h
  have hlen : (addTransactionDB table u merchant cat amt).length = table.length + 1 := by
    simp [addTransactionDB]
  by_cases hi : i < table.length
  · have hget : (addTransactionDB table u merchant cat amt).get ⟨i, h⟩ = table.get ⟨i, hi⟩ := by
      simp only [addTransactionDB, List.get_eq_getElem]
      exact List.getElem_append_left hi
    have htake : (addTransactionDB table u merchant cat amt).take i = table.take i := by
      simp only [addTransactionDB]
      exact List.take_append_of_le_length (le_of_lt hi)
    rw [hget, htake]
    exact hinv i hi
  · have hieq : i = table.length := by
      rw [hlen] at h
      omega
    subst hieq
    have hget : (addTransactionDB table u merchant cat amt).get ⟨table.length, h⟩
        = { username := u, merchant := merchant, category := cat, amount := amt,
            balance_after := lastBalance table u + signedDelta cat amt } := by
      simp only [addTransactionDB, List.get_eq_getElem]
      exact List.getElem_concat_length table _ table.length rfl h
    have htake : (addTransactionDB table u merchant cat amt).take table.length = table := by
      simp only [addTransactionDB]
      exact List.take_left table _
    rw [hget, htake]

/-- C10 witness: inserting into the empty table (whose invariant is
vacuous) yields a table satisfying the invariant. -/
theorem addTransaction_balance_invariant_witness :
    BalanceInvariant (addTransactionDB [] "alice" "store" "Food" 50) := by
  have hnil : BalanceInvariant ([] : List DBRow) := by
    intro i h
    exact absurd h (Nat.not_lt_zero i)
  exact addTransaction_balance_invariant [] "alice" "store" "Food" 50 hnil
